import Mathlib

/-!
Shallow embedding of the AAU Cross-Campus Meal System repository:
the Django CRUD backend (`Django-API-BW/Django-backend/DjangoAPI/MealSystem`:
`models.py`, `serializers.py`, `views.py`, `urls.py`) and the barcode scanner
(`Barcode Scanner from camera web version/scanner/views.py`).

Python/Django runtime behaviour that the source relies on is embedded
explicitly:
* `Model.objects.get(...)` raises `DoesNotExist` when no row matches,
  `MultipleObjectsReturned` when several match, and `FieldError` when a
  keyword argument does not resolve to a model field (models with a custom
  primary key have no `id` field; only `pk` aliases the primary key).
* `JsonResponse(data)` with the default `safe=True` raises `TypeError`
  unless `data` is a dict; every payload in `views.py` is a string or a
  serializer list, never a dict.
* Python's `%` on integers with a positive modulus returns a value in
  `[0, 256)`, matching Lean's `Int.emod`.
-/

namespace MealSystem

/-! ## Data model (`models.py`) -/

/-- `Student` model: `student_id` is a `CharField` declared `primary_key=True`,
so the model has **no** implicit `id` field. -/
structure Student where
  student_id : String
  name : String
  department : String
  year_of_study : Int
  campus : String
  «section» : Int
deriving Repr, DecidableEq

/-- `User` model: `id` is an explicit `AutoField` primary key. -/
structure UserRec where
  id : Int
  name : String
  username : String
deriving Repr, DecidableEq

/-- `Schedule.DAY_CHOICES` day codes. -/
def Schedule.MONDAY : String := "MN"

def Schedule.TUESDAY : String := "TU"

def Schedule.WEDNESDAY : String := "WN"

def Schedule.THURSDAY : String := "TH"

def Schedule.FRIDAY : String := "FR"

def Schedule.SATUARDAY : String := "ST"

def Schedule.SUNDAY : String := "SN"

/-- The two-letter codes of `Schedule.DAY_CHOICES`. -/
def Schedule.dayCodes : List String :=
  [Schedule.MONDAY, Schedule.TUESDAY, Schedule.WEDNESDAY, Schedule.THURSDAY,
   Schedule.FRIDAY, Schedule.SATUARDAY, Schedule.SUNDAY]

/-- `Schedule` model: `schedule_id` is an `AutoField` primary key; `DAY` is a
`CharField` with `choices=DAY_CHOICES` and `default=MONDAY`; `time` is a
`TimeField` (kept as its validated string form). -/
structure Schedule where
  schedule_id : Int
  batch : Int
  department : String
  «section» : Int
  campus : String
  DAY : String
  time : String
deriving Repr, DecidableEq

/-- The declared default of `Schedule.DAY` (`default=MONDAY`). -/
def Schedule.dayDefault : String := Schedule.MONDAY

/-- `MealStatus` model: `student_id` is a `ForeignKey(Student,
on_delete=CASCADE, unique=True, primary_key=True)`; the three meal flags are
`BooleanField(default=False)`. -/
structure MealStatus where
  student_id : String
  breakfast : Bool
  lunch : Bool
  dinner : Bool
deriving Repr, DecidableEq

/-- A `MealStatus` row created with only its primary key set: the three
flags take their declared `default=False`. -/
def MealStatus.mkDefault (sid : String) : MealStatus :=
  ⟨sid, false, false, false⟩

/-- Database state: one table per model. -/
structure Db where
  students : List Student
  users : List UserRec
  schedules : List Schedule
  mealstatuses : List MealStatus
deriving Repr, DecidableEq

def Db.empty : Db := ⟨[], [], [], []⟩

/-! ## Python / Django runtime errors (uncaught exceptions) -/

inductive PyError where
  /-- `JsonResponse` called on a non-dict payload without `safe=False`. -/
  | typeError
  /-- ORM `get()` keyword that does not resolve to a model field. -/
  | fieldError
  /-- ORM `get()` found no matching row (`Model.DoesNotExist`). -/
  | doesNotExist
  /-- ORM `get()` found several matching rows. -/
  | multipleObjectsReturned
  /-- Subscripting a parsed JSON body on a missing key. -/
  | keyError
  /-- Reference to an undefined Python name. -/
  | nameError
deriving Repr, DecidableEq

/-! ## JSON bodies, responses and `JsonResponse` -/

/-- A parsed JSON scalar as the handlers consume it. -/
inductive BodyVal where
  | s (v : String)
  | i (v : Int)
  | b (v : Bool)
deriving Repr, DecidableEq

/-- A parsed JSON body: what `JSONParser().parse(request)` yields. -/
abbrev Body := List (String × BodyVal)

/-- Python `body[key]`: raises `KeyError` when the key is absent. -/
def bodyGet (body : Body) (k : String) : Except PyError BodyVal :=
  match body.find? (fun kv => kv.1 == k) with
  | some kv => Except.ok kv.2
  | none => Except.error PyError.keyError

def bodyLookup (body : Body) (k : String) : Option BodyVal :=
  (body.find? (fun kv => kv.1 == k)).map (fun kv => kv.2)

/-- Response payloads produced by `views.py`: a bare string, a serializer's
list form (`Serializer(qs, many=True).data`), or a single serialized record.
Every call site that omits `safe=False` passes a string. -/
inductive RespData where
  | str (s : String)
  | studentList (xs : List Student)
  | userList (xs : List UserRec)
  | scheduleList (xs : List Schedule)
  | statusList (xs : List MealStatus)
  | statusRecord (x : MealStatus)
deriving Repr, DecidableEq

structure Response where
  data : RespData
  status : Nat
deriving Repr, DecidableEq

/-- `JsonResponse(data, safe=..., status=...)`: with the default `safe=True`
a non-dict payload raises `TypeError`. The only call site in `views.py`
that leaves `safe` at its default passes a bare string, so the `safe=true`
branch always raises here. The default status is 200. -/
def jsonResponse (d : RespData) (safe : Bool) (status : Nat) :
    Except PyError Response :=
  if safe then Except.error PyError.typeError
  else Except.ok ⟨d, status⟩

/-! ## ORM `objects.get` -/

/-- `Model.objects.get(**kwargs)`: if some keyword does not resolve to a
field of the model, Django raises `FieldError`; otherwise no matching row
raises `DoesNotExist`, several raise `MultipleObjectsReturned`, and a unique
match is returned (never `None`). -/
def objectsGet (fields : List String) (kwargs : List String)
    (rows : List α) (pred : α → Bool) : Except PyError α :=
  if kwargs.all (fun k => fields.contains k) then
    match rows.filter pred with
    | [] => Except.error PyError.doesNotExist
    | [x] => Except.ok x
    | _ :: _ :: _ => Except.error PyError.multipleObjectsReturned
  else Except.error PyError.fieldError

/-- Keywords resolvable on `Student`: its declared fields plus the `pk`
alias. `id` is **not** among them (custom primary key). -/
def studentFieldNames : List String :=
  ["student_id", "name", "department", "year_of_study", "campus", "section", "pk"]

def userFieldNames : List String :=
  ["id", "name", "username", "pk"]

def scheduleFieldNames : List String :=
  ["schedule_id", "batch", "department", "section", "campus", "DAY", "time", "pk"]

def mealStatusFieldNames : List String :=
  ["student_id", "breakfast", "lunch", "dinner", "pk"]

/-- Does a row's `String` primary key equal a JSON body value? -/
def pkMatchStr (pk : String) : BodyVal → Bool
  | BodyVal.s v => pk == v
  | _ => false

/-- Does a row's integer primary key equal a JSON body value? -/
def pkMatchInt (pk : Int) : BodyVal → Bool
  | BodyVal.i v => pk == v
  | _ => false

/-! ## Serializer validation (`serializers.py` with DRF `ModelSerializer`
defaults: declared fields are required unless read-only (`AutoField` pks) or
backed by a model default; `CharField`s carry the model's `max_length`;
fields declared `unique=True` (primary keys included) get a
`UniqueValidator`; `choices` restrict admissible values.) -/

/-- Required `CharField` with a `max_length` bound. -/
def validStr (body : Body) (k : String) (maxLen : Nat) : Bool :=
  match bodyLookup body k with
  | some (BodyVal.s v) => v.length ≤ maxLen
  | _ => false

/-- Required `IntegerField`. -/
def validInt (body : Body) (k : String) : Bool :=
  match bodyLookup body k with
  | some (BodyVal.i _) => true
  | _ => false

/-- Optional `BooleanField` (has a model default): absent is fine, present
must be a boolean. -/
def validOptBool (body : Body) (k : String) : Bool :=
  match bodyLookup body k with
  | some (BodyVal.b _) => true
  | some _ => false
  | none => true

/-- A `TimeField` input of the form `HH:MM` or `HH:MM:SS`. -/
def isTimeString (v : String) : Bool :=
  let numLt : String → Nat → Bool := fun s bound =>
    match s.toNat? with
    | some n => decide (n < bound)
    | none => false
  match v.splitOn ":" with
  | [h, m] => numLt h 24 && numLt m 60
  | [h, m, s] => numLt h 24 && numLt m 60 && numLt s 60
  | _ => false

/-- `StudentSerializer.is_valid()`: the six declared fields are required;
`student_id` additionally carries a `UniqueValidator` against the existing
rows (it is a `unique=True` primary key). -/
def studentIsValid (db : Db) (body : Body) : Bool :=
  (match bodyLookup body "student_id" with
   | some (BodyVal.s v) =>
       v.length ≤ 15 && db.students.all (fun st => st.student_id != v)
   | _ => false) &&
  validStr body "name" 20 && validStr body "department" 20 &&
  validInt body "year_of_study" && validStr body "campus" 20 &&
  validInt body "section"

/-- `UserSerializer.is_valid()`: `id` is a read-only `AutoField`, so only
`name` and `username` are required. -/
def userIsValid (body : Body) : Bool :=
  validStr body "name" 20 && validStr body "username" 20

/-- `ScheduleSerializer.is_valid()`: `schedule_id` is not a serializer
field; `DAY` has a model default and `choices`, so it is optional but must
be a valid code when present. -/
def scheduleIsValid (body : Body) : Bool :=
  validInt body "batch" && validStr body "department" 20 &&
  validInt body "section" && validStr body "campus" 20 &&
  (match bodyLookup body "time" with
   | some (BodyVal.s v) => isTimeString v
   | _ => false) &&
  (match bodyLookup body "DAY" with
   | some (BodyVal.s v) => Schedule.dayCodes.contains v
   | some _ => false
   | none => true)

/-- `MealStatusSerializer.is_valid()`: `student_id` is a
`PrimaryKeyRelatedField` (must reference an existing `Student`) declared
`unique=True` (UniqueValidator against existing rows); the three flags have
model defaults, so they are optional booleans. -/
def mealStatusIsValid (db : Db) (body : Body) : Bool :=
  (match bodyLookup body "student_id" with
   | some (BodyVal.s v) =>
       db.students.any (fun st => st.student_id == v) &&
       db.mealstatuses.all (fun ms => ms.student_id != v)
   | _ => false) &&
  validOptBool body "breakfast" && validOptBool body "lunch" &&
  validOptBool body "dinner"

/-! ## Serializer `save()`: building and updating rows from validated data.
The extraction defaults below are only reached on fields the corresponding
`is_valid` check already constrained (or that carry a model default). -/

def getStrD (body : Body) (k : String) : String :=
  match bodyLookup body k with
  | some (BodyVal.s v) => v
  | _ => ""

def getIntD (body : Body) (k : String) : Int :=
  match bodyLookup body k with
  | some (BodyVal.i v) => v
  | _ => 0

def getBoolD (body : Body) (k : String) (d : Bool) : Bool :=
  match bodyLookup body k with
  | some (BodyVal.b v) => v
  | _ => d

def studentFromBody (body : Body) : Student :=
  ⟨getStrD body "student_id", getStrD body "name", getStrD body "department",
   getIntD body "year_of_study", getStrD body "campus", getIntD body "section"⟩

/-- `AutoField` primary-key generation: one more than the largest id in
use (fresh by construction). -/
def nextUserId (users : List UserRec) : Int :=
  (users.map (fun u => u.id)).foldl max 0 + 1

def userFromBody (users : List UserRec) (body : Body) : UserRec :=
  ⟨nextUserId users, getStrD body "name", getStrD body "username"⟩

def nextScheduleId (schedules : List Schedule) : Int :=
  (schedules.map (fun s => s.schedule_id)).foldl max 0 + 1

/-- `DAY` falls back to the model default `MONDAY` when absent. -/
def dayFromBody (body : Body) : String :=
  match bodyLookup body "DAY" with
  | some (BodyVal.s v) => v
  | _ => Schedule.dayDefault

def scheduleFromBody (schedules : List Schedule) (body : Body) : Schedule :=
  ⟨nextScheduleId schedules, getIntD body "batch", getStrD body "department",
   getIntD body "section", getStrD body "campus", dayFromBody body,
   getStrD body "time"⟩

/-- The meal flags fall back to their model default `False` when absent. -/
def mealStatusFromBody (body : Body) : MealStatus :=
  ⟨getStrD body "student_id", getBoolD body "breakfast" false,
   getBoolD body "lunch" false, getBoolD body "dinner" false⟩

/-- `StudentSerializer(student, data=...).save()`: overwrite the matched
row's fields from the validated data. -/
def updateStudents (students : List Student) (target : BodyVal) (body : Body) :
    List Student :=
  students.map (fun st =>
    if pkMatchStr st.student_id target then studentFromBody body else st)

/-- `UserSerializer(user, data=...).save()`: `id` is read-only, so the
primary key is kept. -/
def updateUsers (users : List UserRec) (target : Int) (body : Body) :
    List UserRec :=
  users.map (fun u =>
    if u.id == target then ⟨u.id, getStrD body "name", getStrD body "username"⟩
    else u)

/-- `ScheduleSerializer(schedule, data=...).save()`: `schedule_id` is not a
serializer field, so the primary key is kept. -/
def updateSchedules (schedules : List Schedule) (target : Int) (body : Body) :
    List Schedule :=
  schedules.map (fun s =>
    if s.schedule_id == target then
      ⟨s.schedule_id, getIntD body "batch", getStrD body "department",
       getIntD body "section", getStrD body "campus", dayFromBody body,
       getStrD body "time"⟩
    else s)

def updateMealStatuses (statuses : List MealStatus) (target : String)
    (body : Body) : List MealStatus :=
  statuses.map (fun ms =>
    if ms.student_id == target then
      ⟨ms.student_id, getBoolD body "breakfast" false,
       getBoolD body "lunch" false, getBoolD body "dinner" false⟩
    else ms)

/-! ## The view functions (`views.py`)

Each handler takes the current database, the request method, the parsed
JSON body and the `id` view argument (whose Python default appears at the
call sites in the URL dispatcher below). The result is the updated
database and the HTTP response, or the uncaught Python exception. -/

inductive Method where
  | GET | POST | PUT | DELETE
deriving Repr, DecidableEq

/-- `studentApi(request, id=0)`: the `id` argument is never read. -/
def studentApi (db : Db) (method : Method) (body : Body) (id : Int) :
    Except PyError (Db × Response) :=
  match method with
  | Method.GET => do
      let r ← jsonResponse (RespData.studentList db.students) false 200
      Except.ok (db, r)
  | Method.POST =>
      if studentIsValid db body then do
        let db' := { db with students := db.students ++ [studentFromBody body] }
        let r ← jsonResponse (RespData.str "Student Added Sucessfully!") false 200
        Except.ok (db', r)
      else do
        -- `return JsonResponse("Failed to Add.")` — the source omits
        -- `safe=False` on this one call.
        let r ← jsonResponse (RespData.str "Failed to Add.") true 200
        Except.ok (db, r)
  | Method.PUT => do
      let sid ← bodyGet body "student_id"
      -- `Student.objects.get(id=...)`: the keyword `id` does not resolve on
      -- `Student` (custom primary key `student_id`), so no row predicate is
      -- ever evaluated.
      let _student ← objectsGet studentFieldNames ["id"] db.students
        (fun _ => false)
      if studentIsValid db body then do
        let db' := { db with students := updateStudents db.students sid body }
        let r ← jsonResponse (RespData.str "Data Updated Sucessfully!") false 200
        Except.ok (db', r)
      else do
        let r ← jsonResponse (RespData.str "Failed to Update.") false 200
        Except.ok (db, r)
  | Method.DELETE => do
      let sid ← bodyGet body "student_id"
      -- `Student.objects.get(id=..., safe=False)`: neither `id` nor `safe`
      -- resolves on `Student`.
      let student ← objectsGet studentFieldNames ["id", "safe"] db.students
        (fun st => pkMatchStr st.student_id sid)
      match (some student : Option Student) with
      | some st => do
          let db' := { db with
            students := db.students.filter
              (fun s => !(s.student_id == st.student_id)) }
          let r ← jsonResponse (RespData.str "Data Deleted Sucessfully!") false 200
          Except.ok (db', r)
      | none => do
          let r ← jsonResponse (RespData.str "No such a data.") false 200
          Except.ok (db, r)

/-- `userApi(request, id=-1)`. -/
def userApi (db : Db) (method : Method) (body : Body) (id : Int) :
    Except PyError (Db × Response) :=
  match method with
  | Method.GET =>
      if id == -1 then do
        let r ← jsonResponse (RespData.userList db.users) false 200
        Except.ok (db, r)
      else do
        let user ← objectsGet userFieldNames ["id"] db.users
          (fun u => u.id == id)
        match (some user : Option UserRec) with
        | some _ =>
            -- `JsonResponse(users_serializer.data, safe=False)`: the name
            -- `users_serializer` is undefined in this branch (the local is
            -- `user_serializer`), so Python raises `NameError`.
            Except.error PyError.nameError
        | none => do
            let r ← jsonResponse (RespData.str "No such user") false 200
            Except.ok (db, r)
  | Method.POST =>
      if userIsValid body then do
        let db' := { db with users := db.users ++ [userFromBody db.users body] }
        let r ← jsonResponse (RespData.str "User Added Sucessfully!") false 201
        Except.ok (db', r)
      else do
        let r ← jsonResponse (RespData.str "Failed to Add.") false 400
        Except.ok (db, r)
  | Method.PUT => do
      let idv ← bodyGet body "id"
      let user ← objectsGet userFieldNames ["id"] db.users
        (fun u => pkMatchInt u.id idv)
      if userIsValid body then do
        let db' := { db with users := updateUsers db.users user.id body }
        let r ← jsonResponse (RespData.str "Data Updated Sucessfully!") false 200
        Except.ok (db', r)
      else do
        let r ← jsonResponse (RespData.str "Failed to Update.") false 200
        Except.ok (db, r)
  | Method.DELETE => do
      let idv ← bodyGet body "id"
      let user ← objectsGet userFieldNames ["id"] db.users
        (fun u => pkMatchInt u.id idv)
      let db' := { db with
        users := db.users.filter (fun u => !(u.id == user.id)) }
      let r ← jsonResponse (RespData.str "Data Deleted Sucessfully!") false 200
      Except.ok (db', r)

/-- `scheduleApi(request, id=0)`: the `id` argument is never read. -/
def scheduleApi (db : Db) (method : Method) (body : Body) (id : Int) :
    Except PyError (Db × Response) :=
  match method with
  | Method.GET => do
      let r ← jsonResponse (RespData.scheduleList db.schedules) false 200
      Except.ok (db, r)
  | Method.POST =>
      if scheduleIsValid body then do
        let db' := { db with
          schedules := db.schedules ++ [scheduleFromBody db.schedules body] }
        let r ← jsonResponse (RespData.str "Schedule Added Sucessfully!") false 200
        Except.ok (db', r)
      else do
        let r ← jsonResponse (RespData.str "Failed to Add.") false 200
        Except.ok (db, r)
  | Method.PUT => do
      let sidv ← bodyGet body "schedule_id"
      let schedule ← objectsGet scheduleFieldNames ["schedule_id"] db.schedules
        (fun s => pkMatchInt s.schedule_id sidv)
      if scheduleIsValid body then do
        let db' := { db with
          schedules := updateSchedules db.schedules schedule.schedule_id body }
        let r ← jsonResponse (RespData.str "Data Updated Sucessfully!") false 200
        Except.ok (db', r)
      else do
        let r ← jsonResponse (RespData.str "Failed to Update.") false 200
        Except.ok (db, r)
  | Method.DELETE => do
      let sidv ← bodyGet body "schedule_id"
      let schedule ← objectsGet scheduleFieldNames ["schedule_id"] db.schedules
        (fun s => pkMatchInt s.schedule_id sidv)
      match (some schedule : Option Schedule) with
      | some s => do
          let db' := { db with
            schedules := db.schedules.filter
              (fun x => !(x.schedule_id == s.schedule_id)) }
          let r ← jsonResponse (RespData.str "Data Deleted Sucessfully!") false 200
          Except.ok (db', r)
      | none => do
          let r ← jsonResponse (RespData.str "No such a data.") false 200
          Except.ok (db, r)

/-- `mealStatusApi(request, id=-1)`. -/
def mealStatusApi (db : Db) (method : Method) (body : Body) (id : Int) :
    Except PyError (Db × Response) :=
  match method with
  | Method.GET =>
      if id == -1 then do
        let r ← jsonResponse (RespData.statusList db.mealstatuses) false 200
        Except.ok (db, r)
      else do
        -- `MealStatus.objects.get(id=id)`: `id` does not resolve on
        -- `MealStatus` (custom primary key `student_id`).
        let status ← objectsGet mealStatusFieldNames ["id"] db.mealstatuses
          (fun _ => false)
        match (some status : Option MealStatus) with
        | some st => do
            let r ← jsonResponse (RespData.statusRecord st) false 200
            Except.ok (db, r)
        | none => do
            let r ← jsonResponse (RespData.str "No such status") false 200
            Except.ok (db, r)
  | Method.POST =>
      if mealStatusIsValid db body then do
        let db' := { db with
          mealstatuses := db.mealstatuses ++ [mealStatusFromBody body] }
        let r ← jsonResponse (RespData.str "Status Added Sucessfully!") false 201
        Except.ok (db', r)
      else do
        let r ← jsonResponse (RespData.str "Failed to Add.") false 400
        Except.ok (db, r)
  | Method.PUT => do
      let idv ← bodyGet body "id"
      -- `MealStatus.objects.get(id=...)`: unresolvable keyword again.
      let status ← objectsGet mealStatusFieldNames ["id"] db.mealstatuses
        (fun _ => false)
      if mealStatusIsValid db body then do
        let db' := { db with
          mealstatuses := updateMealStatuses db.mealstatuses status.student_id body }
        let r ← jsonResponse (RespData.str "Status Updated Sucessfully!") false 200
        Except.ok (db', r)
      else do
        let r ← jsonResponse (RespData.str "Failed to Update.") false 200
        Except.ok (db, r)
  | Method.DELETE => do
      let sidv ← bodyGet body "student_id"
      let status ← objectsGet mealStatusFieldNames ["student_id"] db.mealstatuses
        (fun ms => pkMatchStr ms.student_id sidv)
      match (some status : Option MealStatus) with
      | some st => do
          let db' := { db with
            mealstatuses := db.mealstatuses.filter
              (fun ms => !(ms.student_id == st.student_id)) }
          let r ← jsonResponse (RespData.str "Data Deleted Sucessfully!") false 200
          Except.ok (db', r)
      | none => do
          let r ← jsonResponse (RespData.str "No such a data.") false 200
          Except.ok (db, r)

/-! ## URL dispatch (`urls.py`)

The URLconf regexes use only literal characters, the character class
`[a-zA-Z0-9]+` and the end anchor `$`. Capture-group parentheses are lexed
(so they can be counted) but none occur in these patterns. -/

inductive HandlerId where
  | student | user | schedule | mealStatus
deriving Repr, DecidableEq

structure UrlPattern where
  regex : String
  handler : HandlerId
deriving Repr, DecidableEq

/-- `urlpatterns` from `MealSystem/urls.py`, in source order. -/
def urlpatterns : List UrlPattern :=
  [⟨"student/$", HandlerId.student⟩,
   ⟨"student/[a-zA-Z0-9]+$", HandlerId.student⟩,
   ⟨"user/$", HandlerId.user⟩,
   ⟨"user/[a-zA-Z0-9]+$", HandlerId.user⟩,
   ⟨"schedule/$", HandlerId.schedule⟩,
   ⟨"schedule/[a-zA-Z0-9]+$", HandlerId.schedule⟩,
   ⟨"meal-status/$", HandlerId.mealStatus⟩,
   ⟨"meal-status/[a-zA-Z0-9]+$", HandlerId.mealStatus⟩]

inductive RTok where
  | lit (c : Char)
  | alnumPlus
  | eos
  | grpOpen
  | grpClose
deriving Repr, DecidableEq

/-- Lex a pattern string into regex tokens. -/
def lexPat : List Char → List RTok
  | [] => []
  | '[' :: 'a' :: '-' :: 'z' :: 'A' :: '-' :: 'Z' :: '0' :: '-' :: '9' :: ']'
      :: '+' :: rest => RTok.alnumPlus :: lexPat rest
  | '$' :: rest => RTok.eos :: lexPat rest
  | '(' :: rest => RTok.grpOpen :: lexPat rest
  | ')' :: rest => RTok.grpClose :: lexPat rest
  | c :: rest => RTok.lit c :: lexPat rest

/-- Number of capture groups in a pattern; Django passes one positional
argument to the view per unnamed group. -/
def countGroups (r : String) : Nat :=
  (lexPat r.toList).countP (fun t => t == RTok.grpOpen)

def isAlnumChar (c : Char) : Bool :=
  ('a' ≤ c && c ≤ 'z') || ('A' ≤ c && c ≤ 'Z') || ('0' ≤ c && c ≤ '9')

/-- Match a token pattern against a starting position of the subject (the
remainder may be nonempty unless `$` demands the end). Group parentheses do
not occur in this URLconf, so they match nothing. The `fuel` argument makes
the backtracking recursion structural; every recursive call strictly
decreases `toks.length + cs.length`, so the fuel supplied by `matchToks`
never runs out. -/
def matchToksF (fuel : Nat) (toks : List RTok) (cs : List Char) : Bool :=
  match fuel with
  | 0 => false
  | fuel + 1 =>
      match toks, cs with
      | [], _ => true
      | RTok.eos :: rest, cs => cs.isEmpty && matchToksF fuel rest cs
      | RTok.lit c :: rest, d :: cs => c == d && matchToksF fuel rest cs
      | RTok.lit _ :: _, [] => false
      | RTok.alnumPlus :: rest, d :: cs =>
          isAlnumChar d &&
            (matchToksF fuel rest cs ||
             matchToksF fuel (RTok.alnumPlus :: rest) cs)
      | RTok.alnumPlus :: _, [] => false
      | RTok.grpOpen :: _, _ => false
      | RTok.grpClose :: _, _ => false

def matchToks (toks : List RTok) (cs : List Char) : Bool :=
  matchToksF (toks.length + cs.length + 1) toks cs

/-- `re.search` as Django's `RegexPattern` uses it: the pattern matches at
some start position of the path. -/
def regexSearch (pat : String) (path : String) : Bool :=
  let toks := lexPat pat.toList
  (List.range (path.length + 1)).any (fun i => matchToks toks (path.toList.drop i))

/-- Django's URL resolver over this URLconf: the first pattern whose regex
matches the path wins. These regexes contain no capture groups
(`countGroups` is `0` on each, proved below), so the resolver passes no
positional argument and each view receives its declared Python default for
`id`: `0` for `studentApi`/`scheduleApi`, `-1` for
`userApi`/`mealStatusApi`. -/
def handleRequest (db : Db) (path : String) (method : Method) (body : Body) :
    Option (Except PyError (Db × Response)) :=
  match urlpatterns.find? (fun p => regexSearch p.regex path) with
  | none => none
  | some p =>
      match p.handler with
      | HandlerId.student => some (studentApi db method body 0)
      | HandlerId.user => some (userApi db method body (-1))
      | HandlerId.schedule => some (scheduleApi db method body 0)
      | HandlerId.mealStatus => some (mealStatusApi db method body (-1))

end MealSystem

namespace Scanner

/-! ## Barcode scanner (`Barcode Scanner from camera web version/scanner/views.py`) -/

/-- One barcode as `pyzbar` reports it: a bounding rectangle and the raw
byte data. -/
structure Barcode where
  rect : Int × Int × Int × Int
  data : List Nat
deriving Repr, DecidableEq

/-- An image, abstracted to what the scanner observes of it: the barcodes
`pyzbar.decode` finds in it. -/
structure Image where
  barcodes : List Barcode
deriving Repr, DecidableEq

/-- `pyzbar.pyzbar.decode`. -/
def decode (img : Image) : List Barcode := img.barcodes

/-- The local filesystem as `cv.imread` / `cv.imwrite` see it. -/
abbrev FS := String → Image

/-- `cv.imwrite(name, frame)`. -/
def fsWrite (fs : FS) (name : String) (frame : Image) : FS :=
  fun n => if n = name then frame else fs n

/-- The string built by `dec = ""` followed by
`for i in barcode.data: dec += str(chr(i))`. -/
def barcodeText (data : List Nat) : String :=
  data.foldl (fun dec i => dec ++ (Char.ofNat i).toString) ""

/-- `read_bar(filename)`: read the image and decode it; an empty decode
list is falsy and yields the error string, otherwise the `for` loop draws a
rectangle (no effect on the result) and returns the decoded text of the
first barcode from its first iteration. -/
def read_bar (fs : FS) (filename : String) : String :=
  let img := fs filename
  let detectedBarcodes := decode img
  match detectedBarcodes with
  | [] => "Barcode Not Detected or your barcode is blank/corrupted!"
  | barcode :: _ => barcodeText barcode.data

/-- Observable effects of `decode_barcode`: the constructors list every
effect the source performs — camera capture, console print, GUI window,
keyboard wait, local file write, window teardown. -/
inductive Ev where
  | cameraRead
  | printMsg (s : String)
  | imshow (windowName : String)
  | waitKey
  | imwrite (filename : String) (frame : Image)
  | destroyAllWindows
deriving Repr, DecidableEq

/-- Each effect is an operation on the local machine: the effect alphabet
of the scanner contains no network operation. -/
def Ev.isLocalIO : Ev → Bool
  | Ev.cameraRead => true
  | Ev.printMsg _ => true
  | Ev.imshow _ => true
  | Ev.waitKey => true
  | Ev.imwrite _ _ => true
  | Ev.destroyAllWindows => true

/-- How the `while True:` loop ended. -/
inductive LoopExit where
  /-- The supplied input trace ran out before any exit was taken. -/
  | stillRunning
  /-- `if not ret: print("Failed to capture"); break`. -/
  | exitFailed
  /-- `k%256 == 27`: ESC. -/
  | exitEsc
  /-- `k%256 == 13 or k%256 == 32`: Enter or Space, after writing the frame. -/
  | exitWrite (frame : Image)
deriving Repr, DecidableEq

/-- One loop iteration's external input: the `cam.read()` result and the
`cv.waitKey(1)` key code (consumed only when the capture succeeded). -/
abbrev LoopInput := (Bool × Image) × Int

/-- The capture loop of `decode_barcode`, driven by the list of
camera/keyboard inputs, producing the event trace and the exit taken. -/
def captureLoop : List LoopInput → List Ev × LoopExit
  | [] => ([], LoopExit.stillRunning)
  | ((ret, frame), k) :: rest =>
      if !ret then
        ([Ev.cameraRead, Ev.printMsg "Failed to capture"], LoopExit.exitFailed)
      else if k % 256 == 27 then
        ([Ev.cameraRead, Ev.imshow "Scan", Ev.waitKey, Ev.destroyAllWindows],
         LoopExit.exitEsc)
      else if k % 256 == 13 || k % 256 == 32 then
        ([Ev.cameraRead, Ev.imshow "Scan", Ev.waitKey,
          Ev.imwrite "barcode__.jpg" frame, Ev.destroyAllWindows],
         LoopExit.exitWrite frame)
      else
        let (tr, ex) := captureLoop rest
        (Ev.cameraRead :: Ev.imshow "Scan" :: Ev.waitKey :: tr, ex)

/-- `decode_barcode()`: run the capture loop; an Enter/Space exit has
written the frame to `barcode__.jpg`; every exit falls through to
`return read_bar("barcode__.jpg")`. The result pairs the event trace with
the returned string (`none` while the loop has not exited). -/
def decode_barcode (fs : FS) (inputs : List LoopInput) :
    List Ev × Option String :=
  let (tr, ex) := captureLoop inputs
  match ex with
  | LoopExit.stillRunning => (tr, none)
  | LoopExit.exitFailed => (tr, some (read_bar fs "barcode__.jpg"))
  | LoopExit.exitEsc => (tr, some (read_bar fs "barcode__.jpg"))
  | LoopExit.exitWrite frame =>
      (tr, some (read_bar (fsWrite fs "barcode__.jpg" frame) "barcode__.jpg"))

/-- Whether an event is the `cv.imwrite` file write. -/
def Ev.isImwrite : Ev → Bool
  | Ev.imwrite _ _ => true
  | _ => false

end Scanner

open MealSystem Scanner

/-! ## Helper lemmas about the scanner -/

lemma ev_isLocalIO (e : Ev) : e.isLocalIO = true := by
  cases e <;> rfl

lemma decode_barcode_fst (fs : FS) (inputs : List LoopInput) :
    (decode_barcode fs inputs).1 = (captureLoop inputs).1 := by
  unfold decode_barcode
  cases h : captureLoop inputs with
  | mk tr ex => cases ex <;> simp

lemma captureLoop_cameraRead (inputs : List LoopInput) (hne : inputs ≠ []) :
    Ev.cameraRead ∈ (captureLoop inputs).1 := by
  match inputs with
  | [] => exact absurd rfl hne
  | ((ret, frame), k) :: rest =>
      unfold captureLoop
      by_cases hret : ret = false
      · simp [hret]
      · simp only [Bool.not_eq_false] at hret
        by_cases h27 : (k % 256 == 27) = true
        · simp [hret, h27]
        · by_cases h13 : (k % 256 == 13 || k % 256 == 32) = true
          · simp [hret, h27, h13]
          · simp [hret, h27, h13]

lemma captureLoop_exitWrite_imwrite (inputs : List LoopInput) (fr : Image)
    (hw : (captureLoop inputs).2 = LoopExit.exitWrite fr) :
    Ev.imwrite "barcode__.jpg" fr ∈ (captureLoop inputs).1 := by
  induction inputs with
  | nil => simp [captureLoop] at hw
  | cons p rest ih =>
      obtain ⟨⟨ret, frame⟩, k⟩ := p
      unfold captureLoop at hw ⊢
      by_cases hret : ret = false
      · simp [hret] at hw
      · simp only [Bool.not_eq_false] at hret
        by_cases h27 : (k % 256 == 27) = true
        · simp [hret, h27] at hw
        · by_cases h13 : (k % 256 == 13 || k % 256 == 32) = true
          · simp [hret, h27, h13] at hw ⊢
            simp [hw.symm]
          · simp [hret, h27, h13] at hw ⊢
            exact ih hw

/-! ## C5 -/

/-- C5: whenever the decoding library detects no barcode in the image
(`decode` returns the empty list), `read_bar` returns the plain error
string instead of a decoded value. -/
theorem read_bar_no_barcode (fs : FS) (filename : String)
    (h : decode (fs filename) = []) :
    read_bar fs filename =
      "Barcode Not Detected or your barcode is blank/corrupted!" := by
  simp [read_bar, h]

/-- C5 witness: a filesystem whose images contain no barcode. -/
theorem read_bar_no_barcode_witness :
    decode ((fun _ => ⟨[]⟩ : FS) "barcode__.jpg") = [] ∧
    read_bar (fun _ => ⟨[]⟩) "barcode__.jpg" =
      "Barcode Not Detected or your barcode is blank/corrupted!" :=
  ⟨rfl, read_bar_no_barcode (fun _ => ⟨[]⟩) "barcode__.jpg" rfl⟩

/-! ## C10 -/

/-- C10: whenever the decoding library detects at least one barcode,
`read_bar` returns the character-by-character decoded string of the first
detected barcode only, ignoring all remaining barcodes. -/
theorem read_bar_first_barcode (fs : FS) (filename : String)
    (b : Barcode) (rest : List Barcode)
    (h : decode (fs filename) = b :: rest) :
    read_bar fs filename = barcodeText b.data := by
  simp [read_bar, h]

/-- C10 witness: two detected barcodes; the result decodes the first
(`[72, 73]`, i.e. "HI") and the second (`[74]`) is ignored. -/
theorem read_bar_first_barcode_witness :
    read_bar (fun _ => ⟨[⟨(0, 0, 0, 0), [72, 73]⟩, ⟨(0, 0, 0, 0), [74]⟩]⟩)
      "barcode__.jpg" = "HI" := by
  rw [read_bar_first_barcode
    (fun _ => ⟨[⟨(0, 0, 0, 0), [72, 73]⟩, ⟨(0, 0, 0, 0), [74]⟩]⟩)
    "barcode__.jpg" ⟨(0, 0, 0, 0), [72, 73]⟩ [⟨(0, 0, 0, 0), [74]⟩] rfl]
  rfl

/-! ## C7 -/

/-- C7: the capture loop is a sequential loop that blocks on one camera
read per iteration and terminates exactly when the capture fails (printing
"Failed to capture") or the key modulo 256 is 27 (ESC), 13 (Enter) or 32
(Space); on any other key with a successful capture it continues into the
rest of the input, and if every input continues it never exits. -/
theorem captureLoop_exit_condition
    (rest : List LoopInput) (fr : Image) (kEsc kRet kSpc kOther : Int)
    (hEsc : kEsc % 256 = 27) (hRet : kRet % 256 = 13) (hSpc : kSpc % 256 = 32)
    (hOther : kOther % 256 ≠ 27 ∧ kOther % 256 ≠ 13 ∧ kOther % 256 ≠ 32) :
    (captureLoop (((false, fr), kEsc) :: rest) =
       ([Ev.cameraRead, Ev.printMsg "Failed to capture"], LoopExit.exitFailed)) ∧
    (captureLoop (((true, fr), kEsc) :: rest) =
       ([Ev.cameraRead, Ev.imshow "Scan", Ev.waitKey, Ev.destroyAllWindows],
        LoopExit.exitEsc)) ∧
    ((captureLoop (((true, fr), kRet) :: rest)).2 = LoopExit.exitWrite fr) ∧
    ((captureLoop (((true, fr), kSpc) :: rest)).2 = LoopExit.exitWrite fr) ∧
    (captureLoop (((true, fr), kOther) :: rest) =
       (Ev.cameraRead :: Ev.imshow "Scan" :: Ev.waitKey ::
          (captureLoop rest).1, (captureLoop rest).2)) ∧
    (∀ inputs : List LoopInput,
       (∀ p ∈ inputs,
          p.1.1 = true ∧ p.2 % 256 ≠ 27 ∧ p.2 % 256 ≠ 13 ∧ p.2 % 256 ≠ 32) →
       (captureLoop inputs).2 = LoopExit.stillRunning) := by
  obtain ⟨ho27, ho13, ho32⟩ := hOther
  refine ⟨by simp [captureLoop], by simp [captureLoop, hEsc],
    by simp [captureLoop, hRet], by simp [captureLoop, hSpc],
    by simp [captureLoop, ho27, ho13, ho32], ?_⟩
  intro inputs hall
  induction inputs with
  | nil => rfl
  | cons p ps ih =>
      obtain ⟨⟨ret, frame⟩, k⟩ := p
      obtain ⟨hret, h27, h13, h32⟩ := hall _ (List.mem_cons_self _ _)
      simp only at hret h27 h13 h32
      unfold captureLoop
      simp [hret, h27, h13, h32]
      exact ih (fun q hq => hall q (List.mem_cons_of_mem _ hq))

/-- C7 witness: concrete key codes 27, 13, 32 and 0 exercise each exit and
the continue case. -/
theorem captureLoop_exit_condition_witness :
    (captureLoop [((true, ⟨[]⟩), 27)]).2 = LoopExit.exitEsc ∧
    (captureLoop [((true, ⟨[]⟩), 13)]).2 = LoopExit.exitWrite ⟨[]⟩ ∧
    (captureLoop [((true, ⟨[]⟩), 0)]).2 = LoopExit.stillRunning := by
  have h := captureLoop_exit_condition [] ⟨[]⟩ 27 13 32 0 (by decide)
    (by decide) (by decide) (by decide)
  refine ⟨by rw [h.2.1], h.2.2.1, ?_⟩
  exact h.2.2.2.2.2 [((true, ⟨[]⟩), 0)] (by decide)

/-! ## C6 -/

/-- C6 counterexample: an invocation whose loop exits via ESC (first key
27) performs no `imwrite` at all — the trace contains no file write — yet
`read_bar` is still called on `barcode__.jpg`; so it is false that every
invocation writes the captured frame to disk before decoding. -/
theorem decode_barcode_esc_writes_nothing :
    ((decode_barcode (fun _ => ⟨[]⟩) [((true, ⟨[]⟩), 27)]).1.filter
        Ev.isImwrite = []) ∧
    (decode_barcode (fun _ => ⟨[]⟩) [((true, ⟨[]⟩), 27)]).2 =
      some "Barcode Not Detected or your barcode is blank/corrupted!" :=
  ⟨rfl, rfl⟩

/-- C6 amended: every invocation of `decode_barcode` reads camera frames;
when the loop exits via Enter/Space the captured frame is written to
"barcode__.jpg" and the result is `read_bar` applied to the updated file;
and the whole event trace consists of local-machine I/O only — the scanner
performs no network I/O. -/
theorem decode_barcode_io (fs : FS) (inputs : List LoopInput) (fr : Image)
    (hne : inputs ≠ [])
    (hw : (captureLoop inputs).2 = LoopExit.exitWrite fr) :
    Ev.cameraRead ∈ (decode_barcode fs inputs).1 ∧
    Ev.imwrite "barcode__.jpg" fr ∈ (decode_barcode fs inputs).1 ∧
    (decode_barcode fs inputs).2 =
      some (read_bar (fsWrite fs "barcode__.jpg" fr) "barcode__.jpg") ∧
    (∀ e ∈ (decode_barcode fs inputs).1, e.isLocalIO = true) := by
  refine ⟨?_, ?_, ?_, ?_⟩
  · rw [decode_barcode_fst]
    exact captureLoop_cameraRead inputs hne
  · rw [decode_barcode_fst]
    exact captureLoop_exitWrite_imwrite inputs fr hw
  · unfold decode_barcode
    simp [hw]
  · intro e _
    exact ev_isLocalIO e

/-- C6 amended, witness: a one-iteration run ended by the Enter key. -/
theorem decode_barcode_io_witness :
    ([((true, Image.mk []), 13)] ≠ ([] : List LoopInput)) ∧
    (captureLoop [((true, Image.mk []), 13)]).2 =
      LoopExit.exitWrite (Image.mk []) ∧
    Ev.imwrite "barcode__.jpg" (Image.mk []) ∈
      (decode_barcode (fun _ => ⟨[⟨(0, 0, 0, 0), [65]⟩]⟩)
        [((true, Image.mk []), 13)]).1 ∧
    (decode_barcode (fun _ => ⟨[⟨(0, 0, 0, 0), [65]⟩]⟩)
        [((true, Image.mk []), 13)]).2 =
      some (read_bar
        (fsWrite (fun _ => ⟨[⟨(0, 0, 0, 0), [65]⟩]⟩) "barcode__.jpg"
          (Image.mk []))
        "barcode__.jpg") := by
  have h := decode_barcode_io (fun _ => ⟨[⟨(0, 0, 0, 0), [65]⟩]⟩)
    [((true, Image.mk []), 13)] (Image.mk []) (by simp) rfl
  exact ⟨by simp, rfl, h.2.1, h.2.2.1⟩

/-! ## C1 -/

/-- C1: a DELETE whose JSON body identifies a non-existent record does
**not** return "No such a data."; instead the handler lets an uncaught
exception propagate. `Model.objects.get` raises `DoesNotExist` on a missing
row (it never returns `None`, so the `is not None` guard is dead), and
`studentApi` additionally passes the unresolvable keywords `id` and `safe`
to `get`, raising `FieldError`. Evaluated at an empty database. -/
theorem delete_missing_raises :
    studentApi Db.empty Method.DELETE
        [("student_id", BodyVal.s "UGR-1234")] 0 =
      Except.error PyError.fieldError ∧
    scheduleApi Db.empty Method.DELETE
        [("schedule_id", BodyVal.i 1)] 0 =
      Except.error PyError.doesNotExist ∧
    mealStatusApi Db.empty Method.DELETE
        [("student_id", BodyVal.s "UGR-1234")] (-1) =
      Except.error PyError.doesNotExist :=
  ⟨rfl, rfl, rfl⟩

/-! ## C2 -/

/-- C2: a POST whose body fails serializer validation yields the
"Failed to Add." response only on the schedule endpoint; on the student
endpoint the failure branch calls `JsonResponse("Failed to Add.")` without
`safe=False`, which raises `TypeError` instead of returning. Evaluated at
an empty database with an empty (hence invalid) body. -/
theorem post_invalid_failed_to_add :
    studentApi Db.empty Method.POST [] 0 = Except.error PyError.typeError ∧
    scheduleApi Db.empty Method.POST [] 0 =
      Except.ok (Db.empty, ⟨RespData.str "Failed to Add.", 200⟩) :=
  ⟨rfl, rfl⟩

/-! ## C3 -/

/-- C3 counterexample: the claim says the student handler's POST failure
response defaults to HTTP 200; in fact that branch raises `TypeError`
(missing `safe=False`) and returns no response at all. -/
theorem student_post_failure_no_200_response :
    studentApi Db.empty Method.POST [("name", BodyVal.s "abebe")] 0 =
      Except.error PyError.typeError :=
  rfl

/-- C3 amended: HTTP status codes on failure are inconsistent across
handlers. The schedule handler's POST and PUT failure responses omit an
explicit status code and default to HTTP 200; the student handler never
reaches a failure response — its POST failure raises `TypeError` (missing
`safe=False`) and its PUT raises `FieldError` (`Student.objects.get(id=...)`
on a model without an `id` field); the POST failures of the user and
meal-status handlers set status 400 and their successes 201. -/
theorem status_codes_inconsistent (db : Db) (s : Schedule)
    (bad goodU goodM : Body)
    (hbadSch : scheduleIsValid bad = false)
    (hbadStu : studentIsValid db bad = false)
    (hbadU : userIsValid bad = false)
    (hbadM : mealStatusIsValid db bad = false)
    (hput : scheduleIsValid (("schedule_id", BodyVal.i s.schedule_id) :: bad) = false)
    (hgoodU : userIsValid goodU = true)
    (hgoodM : mealStatusIsValid db goodM = true) :
    scheduleApi db Method.POST bad 0 =
      Except.ok (db, ⟨RespData.str "Failed to Add.", 200⟩) ∧
    scheduleApi ⟨[], [], [s], []⟩ Method.PUT
        (("schedule_id", BodyVal.i s.schedule_id) :: bad) 0 =
      Except.ok (⟨[], [], [s], []⟩, ⟨RespData.str "Failed to Update.", 200⟩) ∧
    studentApi db Method.POST bad 0 = Except.error PyError.typeError ∧
    studentApi db Method.PUT (("student_id", BodyVal.s "X") :: bad) 0 =
      Except.error PyError.fieldError ∧
    userApi db Method.POST bad (-1) =
      Except.ok (db, ⟨RespData.str "Failed to Add.", 400⟩) ∧
    mealStatusApi db Method.POST bad (-1) =
      Except.ok (db, ⟨RespData.str "Failed to Add.", 400⟩) ∧
    userApi db Method.POST goodU (-1) =
      Except.ok ({ db with users := db.users ++ [userFromBody db.users goodU] },
        ⟨RespData.str "User Added Sucessfully!", 201⟩) ∧
    mealStatusApi db Method.POST goodM (-1) =
      Except.ok ({ db with
          mealstatuses := db.mealstatuses ++ [mealStatusFromBody goodM] },
        ⟨RespData.str "Status Added Sucessfully!", 201⟩) := by
  refine ⟨?_, ?_, ?_, ?_, ?_, ?_, ?_, ?_⟩
  · simp [scheduleApi, hbadSch, jsonResponse, Bind.bind, Except.bind]
  · simp [scheduleApi, bodyGet, objectsGet, scheduleFieldNames, pkMatchInt,
      hput, jsonResponse, Bind.bind, Except.bind]
  · simp [studentApi, hbadStu, jsonResponse, Bind.bind, Except.bind]
  · simp [studentApi, bodyGet, objectsGet, studentFieldNames, jsonResponse,
      Bind.bind, Except.bind]
  · simp [userApi, hbadU, jsonResponse, Bind.bind, Except.bind]
  · simp [mealStatusApi, hbadM, jsonResponse, Bind.bind, Except.bind]
  · simp [userApi, hgoodU, jsonResponse, Bind.bind, Except.bind]
  · simp [mealStatusApi, hgoodM, jsonResponse, Bind.bind, Except.bind]

/-- C3 amended, witness: an empty body is invalid for every serializer; a
database holding the student "S1" accepts the meal-status body; the user
body carries the two required fields. -/
theorem status_codes_inconsistent_witness :
    userApi ⟨[⟨"S1", "n", "d", 1, "c", 1⟩], [], [], []⟩ Method.POST [] (-1) =
      Except.ok (⟨[⟨"S1", "n", "d", 1, "c", 1⟩], [], [], []⟩,
        ⟨RespData.str "Failed to Add.", 400⟩) ∧
    userApi ⟨[⟨"S1", "n", "d", 1, "c", 1⟩], [], [], []⟩ Method.POST
        [("name", BodyVal.s "a"), ("username", BodyVal.s "b")] (-1) =
      Except.ok (⟨[⟨"S1", "n", "d", 1, "c", 1⟩], [⟨1, "a", "b"⟩], [], []⟩,
        ⟨RespData.str "User Added Sucessfully!", 201⟩) ∧
    mealStatusApi ⟨[⟨"S1", "n", "d", 1, "c", 1⟩], [], [], []⟩ Method.POST
        [("student_id", BodyVal.s "S1")] (-1) =
      Except.ok (⟨[⟨"S1", "n", "d", 1, "c", 1⟩], [], [],
          [⟨"S1", false, false, false⟩]⟩,
        ⟨RespData.str "Status Added Sucessfully!", 201⟩) := by
  have h := status_codes_inconsistent ⟨[⟨"S1", "n", "d", 1, "c", 1⟩], [], [], []⟩
    ⟨1, 1, "d", 1, "c", "MN", "10:00"⟩ []
    [("name", BodyVal.s "a"), ("username", BodyVal.s "b")]
    [("student_id", BodyVal.s "S1")]
    rfl rfl rfl rfl rfl rfl rfl
  exact ⟨h.2.2.2.2.1, h.2.2.2.2.2.2.1, h.2.2.2.2.2.2.2⟩

/-! ## C4 -/

/-- C4: none of the eight URL patterns contains a capture group, so the
resolver invokes every matched view with its declared default `id`
(`0` for student/schedule, `-1` for user/meal-status); in particular a GET
dispatched to `user/3` or `meal-status/7` takes the `id == -1` branch and
returns the serialized full collection, never a single record. -/
theorem urls_no_capture_default_id (db : Db) (body : Body) (path : String)
    (method : Method) :
    (urlpatterns.all (fun p => countGroups p.regex == 0) = true) ∧
    (handleRequest db path method body = none ∨
     handleRequest db path method body = some (studentApi db method body 0) ∨
     handleRequest db path method body = some (userApi db method body (-1)) ∨
     handleRequest db path method body = some (scheduleApi db method body 0) ∨
     handleRequest db path method body = some (mealStatusApi db method body (-1))) ∧
    handleRequest db "user/3" Method.GET body =
      some (Except.ok (db, ⟨RespData.userList db.users, 200⟩)) ∧
    handleRequest db "meal-status/7" Method.GET body =
      some (Except.ok (db, ⟨RespData.statusList db.mealstatuses, 200⟩)) := by
  refine ⟨by decide, ?_, rfl, rfl⟩
  rcases hfind : urlpatterns.find? (fun p => regexSearch p.regex path) with _ | p
  · exact Or.inl (by simp [handleRequest, hfind])
  · rcases p with ⟨r, h⟩
    cases h
    · exact Or.inr (Or.inl (by simp [handleRequest, hfind]))
    · exact Or.inr (Or.inr (Or.inl (by simp [handleRequest, hfind])))
    · exact Or.inr (Or.inr (Or.inr (Or.inl (by simp [handleRequest, hfind]))))
    · exact Or.inr (Or.inr (Or.inr (Or.inr (by simp [handleRequest, hfind]))))

/-! ## Primary-key uniqueness over reachable database states -/

/-- Every table's primary-key column holds pairwise-distinct values, so a
primary key identifies at most one record. -/
def pkUnique (db : Db) : Prop :=
  (db.students.map (fun s => s.student_id)).Nodup ∧
  (db.users.map (fun u => u.id)).Nodup ∧
  (db.schedules.map (fun s => s.schedule_id)).Nodup ∧
  (db.mealstatuses.map (fun ms => ms.student_id)).Nodup

/-- Database states reachable from the empty database through successful
invocations of the four view functions. -/
inductive Reachable : Db → Prop where
  | init : Reachable Db.empty
  | stepStudent {db db' : Db} {m : Method} {body : Body} {id : Int}
      {r : Response} : Reachable db →
      studentApi db m body id = Except.ok (db', r) → Reachable db'
  | stepUser {db db' : Db} {m : Method} {body : Body} {id : Int}
      {r : Response} : Reachable db →
      userApi db m body id = Except.ok (db', r) → Reachable db'
  | stepSchedule {db db' : Db} {m : Method} {body : Body} {id : Int}
      {r : Response} : Reachable db →
      scheduleApi db m body id = Except.ok (db', r) → Reachable db'
  | stepMealStatus {db db' : Db} {m : Method} {body : Body} {id : Int}
      {r : Response} : Reachable db →
      mealStatusApi db m body id = Except.ok (db', r) → Reachable db'

lemma foldl_max_init_le (l : List Int) (a : Int) : a ≤ l.foldl max a := by
  induction l generalizing a with
  | nil => exact le_refl a
  | cons y ys ih => exact le_trans (le_max_left a y) (ih (max a y))

lemma mem_le_foldl_max (l : List Int) (a x : Int) (hx : x ∈ l) :
    x ≤ l.foldl max a := by
  induction l generalizing a with
  | nil => cases hx
  | cons y ys ih =>
      rcases List.mem_cons.mp hx with rfl | hx'
      · exact le_trans (le_max_right a x) (foldl_max_init_le ys (max a x))
      · exact ih (max a y) hx'

lemma nextUserId_fresh (users : List UserRec) (u : UserRec) (hu : u ∈ users) :
    u.id ≠ nextUserId users := by
  have hle := mem_le_foldl_max (users.map (fun v => v.id)) 0 u.id
    (List.mem_map_of_mem _ hu)
  unfold nextUserId
  omega

lemma nextScheduleId_fresh (schedules : List Schedule) (s : Schedule)
    (hs : s ∈ schedules) : s.schedule_id ≠ nextScheduleId schedules := by
  have hle := mem_le_foldl_max (schedules.map (fun v => v.schedule_id)) 0
    s.schedule_id (List.mem_map_of_mem _ hs)
  unfold nextScheduleId
  omega

lemma nodup_map_filter {α β : Type} (f : α → β) (p : α → Bool) (l : List α)
    (h : (l.map f).Nodup) : ((l.filter p).map f).Nodup :=
  List.Nodup.sublist (List.Sublist.map f (List.filter_sublist l)) h

lemma nodup_map_append_singleton {α β : Type} (f : α → β) (l : List α)
    (a : α) (h : (l.map f).Nodup) (hfresh : ∀ x ∈ l, f x ≠ f a) :
    ((l ++ [a]).map f).Nodup := by
  rw [List.map_append, List.nodup_append]
  refine ⟨h, List.nodup_singleton _, ?_⟩
  intro x hx hx2
  rcases List.mem_map.mp hx with ⟨y, hy, rfl⟩
  simp only [List.map_singleton, List.mem_singleton] at hx2
  exact hfresh y hy hx2

lemma updateUsers_map_id (users : List UserRec) (t : Int) (body : Body) :
    (updateUsers users t body).map (fun u => u.id) =
      users.map (fun u => u.id) := by
  induction users with
  | nil => rfl
  | cons u us ih =>
      unfold updateUsers at ih ⊢
      by_cases hc : (u.id == t) = true
      · simp only [List.map_cons, hc, if_true]
        exact congrArg _ ih
      · simp only [List.map_cons, hc, if_false, Bool.false_eq_true]
        exact congrArg _ ih

lemma updateSchedules_map_pk (schedules : List Schedule) (t : Int)
    (body : Body) :
    (updateSchedules schedules t body).map (fun s => s.schedule_id) =
      schedules.map (fun s => s.schedule_id) := by
  induction schedules with
  | nil => rfl
  | cons s ss ih =>
      unfold updateSchedules at ih ⊢
      by_cases hc : (s.schedule_id == t) = true
      · simp only [List.map_cons, hc, if_true]
        exact congrArg _ ih
      · simp only [List.map_cons, hc, if_false, Bool.false_eq_true]
        exact congrArg _ ih

lemma objectsGet_student_id_fieldError (rows : List Student)
    (pred : Student → Bool) :
    objectsGet studentFieldNames ["id"] rows pred =
      Except.error PyError.fieldError := by
  have hc : (["id"].all (fun k => studentFieldNames.contains k)) = false := by
    decide
  unfold objectsGet
  rw [hc]
  rfl

lemma objectsGet_student_id_safe_fieldError (rows : List Student)
    (pred : Student → Bool) :
    objectsGet studentFieldNames ["id", "safe"] rows pred =
      Except.error PyError.fieldError := by
  have hc : ((["id", "safe"].all (fun k => studentFieldNames.contains k)) = false) := by
    decide
  unfold objectsGet
  rw [hc]
  rfl

lemma objectsGet_mealstatus_id_fieldError (rows : List MealStatus)
    (pred : MealStatus → Bool) :
    objectsGet mealStatusFieldNames ["id"] rows pred =
      Except.error PyError.fieldError := by
  have hc : ((["id"].all (fun k => mealStatusFieldNames.contains k)) = false) := by
    decide
  unfold objectsGet
  rw [hc]
  rfl

lemma studentIsValid_fresh (db : Db) (body : Body)
    (h : studentIsValid db body = true) :
    ∀ st ∈ db.students,
      st.student_id ≠ (studentFromBody body).student_id := by
  intro st hst
  unfold studentIsValid at h
  rcases hlook : bodyLookup body "student_id" with _ | v
  · rw [hlook] at h
    simp at h
  · rcases v with v | v | v
    · rw [hlook] at h
      simp only [Bool.and_eq_true, List.all_eq_true, bne_iff_ne] at h
      obtain ⟨⟨⟨⟨⟨⟨-, hall⟩, -⟩, -⟩, -⟩, -⟩, -⟩ := h
      have hne := hall st hst
      show st.student_id ≠ getStrD body "student_id"
      unfold getStrD
      rw [hlook]
      exact hne
    · rw [hlook] at h
      simp at h
    · rw [hlook] at h
      simp at h

lemma studentApi_preserves (db db' : Db) (m : Method) (body : Body)
    (id : Int) (r : Response)
    (hok : studentApi db m body id = Except.ok (db', r))
    (h : pkUnique db) : pkUnique db' := by
  obtain ⟨hstu, husr, hsch, hms⟩ := h
  cases m with
  | GET =>
      simp [studentApi, jsonResponse, Bind.bind, Except.bind] at hok
      rw [← hok.1]
      exact ⟨hstu, husr, hsch, hms⟩
  | POST =>
      by_cases hv : studentIsValid db body = true
      · simp [studentApi, hv, jsonResponse, Bind.bind, Except.bind] at hok
        rw [← hok.1]
        refine ⟨?_, husr, hsch, hms⟩
        exact nodup_map_append_singleton _ _ _ hstu
          (fun st hst => studentIsValid_fresh db body hv st hst)
      · simp [studentApi, hv, jsonResponse, Bind.bind, Except.bind] at hok
  | PUT =>
      rcases hbg : bodyGet body "student_id" with e | v
      · simp [studentApi, hbg, Bind.bind, Except.bind] at hok
      · simp [studentApi, hbg, objectsGet_student_id_fieldError,
          Bind.bind, Except.bind] at hok
  | DELETE =>
      rcases hbg : bodyGet body "student_id" with e | v
      · simp [studentApi, hbg, Bind.bind, Except.bind] at hok
      · simp [studentApi, hbg, objectsGet_student_id_safe_fieldError,
          Bind.bind, Except.bind] at hok

lemma userApi_preserves (db db' : Db) (m : Method) (body : Body) (id : Int)
    (r : Response) (hok : userApi db m body id = Except.ok (db', r))
    (h : pkUnique db) : pkUnique db' := by
  obtain ⟨hstu, husr, hsch, hms⟩ := h
  cases m with
  | GET =>
      by_cases hid : (id == -1) = true
      · simp [userApi, hid, jsonResponse, Bind.bind, Except.bind] at hok
        rw [← hok.1]
        exact ⟨hstu, husr, hsch, hms⟩
      · rcases hget : objectsGet userFieldNames ["id"] db.users
            (fun u => u.id == id) with e | u
        · simp [userApi, hid, hget, Bind.bind, Except.bind] at hok
        · simp [userApi, hid, hget, Bind.bind, Except.bind] at hok
  | POST =>
      by_cases hv : userIsValid body = true
      · simp [userApi, hv, jsonResponse, Bind.bind, Except.bind] at hok
        rw [← hok.1]
        refine ⟨hstu, ?_, hsch, hms⟩
        exact nodup_map_append_singleton _ _ _ husr
          (fun u hu => nextUserId_fresh db.users u hu)
      · simp [userApi, hv, jsonResponse, Bind.bind, Except.bind] at hok
        rw [← hok.1]
        exact ⟨hstu, husr, hsch, hms⟩
  | PUT =>
      rcases hbg : bodyGet body "id" with e | v
      · simp [userApi, hbg, Bind.bind, Except.bind] at hok
      · rcases hget : objectsGet userFieldNames ["id"] db.users
            (fun u => pkMatchInt u.id v) with e | u
        · simp [userApi, hbg, hget, Bind.bind, Except.bind] at hok
        · by_cases hv : userIsValid body = true
          · simp [userApi, hbg, hget, hv, jsonResponse,
              Bind.bind, Except.bind] at hok
            rw [← hok.1]
            refine ⟨hstu, ?_, hsch, hms⟩
            rw [updateUsers_map_id]
            exact husr
          · simp [userApi, hbg, hget, hv, jsonResponse,
              Bind.bind, Except.bind] at hok
            rw [← hok.1]
            exact ⟨hstu, husr, hsch, hms⟩
  | DELETE =>
      rcases hbg : bodyGet body "id" with e | v
      · simp [userApi, hbg, Bind.bind, Except.bind] at hok
      · rcases hget : objectsGet userFieldNames ["id"] db.users
            (fun u => pkMatchInt u.id v) with e | u
        · simp [userApi, hbg, hget, Bind.bind, Except.bind] at hok
        · simp [userApi, hbg, hget, jsonResponse, Bind.bind, Except.bind] at hok
          rw [← hok.1]
          refine ⟨hstu, ?_, hsch, hms⟩
          exact nodup_map_filter _ _ _ husr

lemma scheduleApi_preserves (db db' : Db) (m : Method) (body : Body)
    (id : Int) (r : Response)
    (hok : scheduleApi db m body id = Except.ok (db', r))
    (h : pkUnique db) : pkUnique db' := by
  obtain ⟨hstu, husr, hsch, hms⟩ := h
  cases m with
  | GET =>
      simp [scheduleApi, jsonResponse, Bind.bind, Except.bind] at hok
      rw [← hok.1]
      exact ⟨hstu, husr, hsch, hms⟩
  | POST =>
      by_cases hv : scheduleIsValid body = true
      · simp [scheduleApi, hv, jsonResponse, Bind.bind, Except.bind] at hok
        rw [← hok.1]
        refine ⟨hstu, husr, ?_, hms⟩
        exact nodup_map_append_singleton _ _ _ hsch
          (fun s hs => nextScheduleId_fresh db.schedules s hs)
      · simp [scheduleApi, hv, jsonResponse, Bind.bind, Except.bind] at hok
        rw [← hok.1]
        exact ⟨hstu, husr, hsch, hms⟩
  | PUT =>
      rcases hbg : bodyGet body "schedule_id" with e | v
      · simp [scheduleApi, hbg, Bind.bind, Except.bind] at hok
      · rcases hget : objectsGet scheduleFieldNames ["schedule_id"]
            db.schedules (fun s => pkMatchInt s.schedule_id v) with e | s
        · simp [scheduleApi, hbg, hget, Bind.bind, Except.bind] at hok
        · by_cases hv : scheduleIsValid body = true
          · simp [scheduleApi, hbg, hget, hv, jsonResponse,
              Bind.bind, Except.bind] at hok
            rw [← hok.1]
            refine ⟨hstu, husr, ?_, hms⟩
            rw [updateSchedules_map_pk]
            exact hsch
          · simp [scheduleApi, hbg, hget, hv, jsonResponse,
              Bind.bind, Except.bind] at hok
            rw [← hok.1]
            exact ⟨hstu, husr, hsch, hms⟩
  | DELETE =>
      rcases hbg : bodyGet body "schedule_id" with e | v
      · simp [scheduleApi, hbg, Bind.bind, Except.bind] at hok
      · rcases hget : objectsGet scheduleFieldNames ["schedule_id"]
            db.schedules (fun s => pkMatchInt s.schedule_id v) with e | s
        · simp [scheduleApi, hbg, hget, Bind.bind, Except.bind] at hok
        · simp [scheduleApi, hbg, hget, jsonResponse,
            Bind.bind, Except.bind] at hok
          rw [← hok.1]
          refine ⟨hstu, husr, ?_, hms⟩
          exact nodup_map_filter _ _ _ hsch

lemma mealStatusIsValid_fresh (db : Db) (body : Body)
    (h : mealStatusIsValid db body = true) :
    ∀ ms ∈ db.mealstatuses,
      ms.student_id ≠ (mealStatusFromBody body).student_id := by
  intro ms hms
  unfold mealStatusIsValid at h
  rcases hlook : bodyLookup body "student_id" with _ | v
  · rw [hlook] at h
    simp at h
  · rcases v with v | v | v
    · rw [hlook] at h
      simp only [Bool.and_eq_true, List.all_eq_true, bne_iff_ne] at h
      obtain ⟨⟨⟨⟨-, hall⟩, -⟩, -⟩, -⟩ := h
      have hne := hall ms hms
      show ms.student_id ≠ getStrD body "student_id"
      unfold getStrD
      rw [hlook]
      exact hne
    · rw [hlook] at h
      simp at h
    · rw [hlook] at h
      simp at h

lemma mealStatusApi_preserves (db db' : Db) (m : Method) (body : Body)
    (id : Int) (r : Response)
    (hok : mealStatusApi db m body id = Except.ok (db', r))
    (h : pkUnique db) : pkUnique db' := by
  obtain ⟨hstu, husr, hsch, hms⟩ := h
  cases m with
  | GET =>
      by_cases hid : (id == -1) = true
      · simp [mealStatusApi, hid, jsonResponse, Bind.bind, Except.bind] at hok
        rw [← hok.1]
        exact ⟨hstu, husr, hsch, hms⟩
      · simp [mealStatusApi, hid, objectsGet_mealstatus_id_fieldError,
          Bind.bind, Except.bind] at hok
  | POST =>
      by_cases hv : mealStatusIsValid db body = true
      · simp [mealStatusApi, hv, jsonResponse, Bind.bind, Except.bind] at hok
        rw [← hok.1]
        refine ⟨hstu, husr, hsch, ?_⟩
        exact nodup_map_append_singleton _ _ _ hms
          (fun ms hm => mealStatusIsValid_fresh db body hv ms hm)
      · simp [mealStatusApi, hv, jsonResponse, Bind.bind, Except.bind] at hok
        rw [← hok.1]
        exact ⟨hstu, husr, hsch, hms⟩
  | PUT =>
      rcases hbg : bodyGet body "id" with e | v
      · simp [mealStatusApi, hbg, Bind.bind, Except.bind] at hok
      · simp [mealStatusApi, hbg, objectsGet_mealstatus_id_fieldError,
          Bind.bind, Except.bind] at hok
  | DELETE =>
      rcases hbg : bodyGet body "student_id" with e | v
      · simp [mealStatusApi, hbg, Bind.bind, Except.bind] at hok
      · rcases hget : objectsGet mealStatusFieldNames ["student_id"]
            db.mealstatuses (fun ms => pkMatchStr ms.student_id v) with e | st
        · simp [mealStatusApi, hbg, hget, Bind.bind, Except.bind] at hok
        · simp [mealStatusApi, hbg, hget, jsonResponse,
            Bind.bind, Except.bind] at hok
          rw [← hok.1]
          refine ⟨hstu, husr, hsch, ?_⟩
          exact nodup_map_filter _ _ _ hms

lemma pkUnique_empty : pkUnique Db.empty :=
  ⟨List.nodup_nil, List.nodup_nil, List.nodup_nil, List.nodup_nil⟩

/-- Primary-key uniqueness is an invariant of every reachable state. -/
lemma reachable_pkUnique (db : Db) (h : Reachable db) : pkUnique db := by
  induction h with
  | init => exact pkUnique_empty
  | stepStudent _ hok ih => exact studentApi_preserves _ _ _ _ _ _ hok ih
  | stepUser _ hok ih => exact userApi_preserves _ _ _ _ _ _ hok ih
  | stepSchedule _ hok ih => exact scheduleApi_preserves _ _ _ _ _ _ hok ih
  | stepMealStatus _ hok ih => exact mealStatusApi_preserves _ _ _ _ _ _ hok ih

/-! ## C8 -/

/-- C8: the data model's invariants are defaults and primary-key
uniqueness: a `MealStatus` created without explicit flag values has
`breakfast = lunch = dinner = False` (both at the model level and through
the serializer), a `Schedule` created without an explicit `DAY` gets
`"MN"` (Monday), and in every reachable database state each entity's
primary key identifies at most one record. -/
theorem model_defaults_and_pk_unique (db : Db) (sid : String)
    (h : Reachable db) :
    (MealStatus.mkDefault sid).breakfast = false ∧
    (MealStatus.mkDefault sid).lunch = false ∧
    (MealStatus.mkDefault sid).dinner = false ∧
    mealStatusFromBody [("student_id", BodyVal.s sid)] =
      MealStatus.mkDefault sid ∧
    Schedule.dayDefault = "MN" ∧
    (scheduleFromBody db.schedules [("time", BodyVal.s "10:00")]).DAY = "MN" ∧
    pkUnique db :=
  ⟨rfl, rfl, rfl, rfl, rfl, rfl, reachable_pkUnique db h⟩

/-- C8 witness at the initial (empty, reachable) database. -/
theorem model_defaults_and_pk_unique_witness :
    (MealStatus.mkDefault "S1").breakfast = false ∧
    (MealStatus.mkDefault "S1").lunch = false ∧
    (MealStatus.mkDefault "S1").dinner = false ∧
    mealStatusFromBody [("student_id", BodyVal.s "S1")] =
      MealStatus.mkDefault "S1" ∧
    Schedule.dayDefault = "MN" ∧
    (scheduleFromBody Db.empty.schedules [("time", BodyVal.s "10:00")]).DAY = "MN" ∧
    pkUnique Db.empty :=
  model_defaults_and_pk_unique Db.empty "S1" Reachable.init

/-! ## C9 -/

/-- Django's `on_delete=models.CASCADE` on `MealStatus.student_id`:
`student.delete()` collects the referencing `MealStatus` rows and deletes
them together with the student row. -/
def studentDeleteCascade (db : Db) (sid : String) : Db :=
  { db with
    students := db.students.filter (fun s => !(s.student_id == sid)),
    mealstatuses := db.mealstatuses.filter (fun ms => !(ms.student_id == sid)) }

/-- C9: in every reachable database state each `Student` has at most one
`MealStatus` record (`student_id` is a unique primary key), and cascade
deletion of a `Student` also removes its `MealStatus` record: afterwards no
meal status (and no student) carries the deleted key. -/
theorem mealstatus_at_most_one_and_cascade (db : Db) (sid : String)
    (h : Reachable db) :
    (∀ ms₁ ∈ db.mealstatuses, ∀ ms₂ ∈ db.mealstatuses,
        ms₁.student_id = ms₂.student_id → ms₁ = ms₂) ∧
    (∀ ms ∈ (studentDeleteCascade db sid).mealstatuses,
        ms.student_id ≠ sid) ∧
    (∀ s ∈ (studentDeleteCascade db sid).students, s.student_id ≠ sid) := by
  obtain ⟨-, -, -, hms⟩ := reachable_pkUnique db h
  refine ⟨?_, ?_, ?_⟩
  · intro ms₁ h₁ ms₂ h₂ heq
    exact List.inj_on_of_nodup_map hms h₁ h₂ heq
  · intro ms hmem
    have hp := List.of_mem_filter hmem
    simpa using hp
  · intro s hmem
    have hp := List.of_mem_filter hmem
    simpa using hp

/-- C9 witness: a database reached by POSTing student "S1" and then a meal
status for "S1"; cascade-deleting "S1" leaves no meal status with that
key. -/
theorem mealstatus_at_most_one_and_cascade_witness :
    Reachable (⟨[⟨"S1", "Abebe", "SWE", 3, "AAiT", 1⟩], [], [],
        [⟨"S1", false, false, false⟩]⟩ : Db) ∧
    (∀ ms ∈ (studentDeleteCascade
        ⟨[⟨"S1", "Abebe", "SWE", 3, "AAiT", 1⟩], [], [],
          [⟨"S1", false, false, false⟩]⟩ "S1").mealstatuses,
      ms.student_id ≠ "S1") := by
  have h1 : studentApi Db.empty Method.POST
      [("student_id", BodyVal.s "S1"), ("name", BodyVal.s "Abebe"),
       ("department", BodyVal.s "SWE"), ("year_of_study", BodyVal.i 3),
       ("campus", BodyVal.s "AAiT"), ("section", BodyVal.i 1)] 0 =
      Except.ok (⟨[⟨"S1", "Abebe", "SWE", 3, "AAiT", 1⟩], [], [], []⟩,
        ⟨RespData.str "Student Added Sucessfully!", 200⟩) := rfl
  have h2 : mealStatusApi ⟨[⟨"S1", "Abebe", "SWE", 3, "AAiT", 1⟩], [], [], []⟩
      Method.POST [("student_id", BodyVal.s "S1")] (-1) =
      Except.ok (⟨[⟨"S1", "Abebe", "SWE", 3, "AAiT", 1⟩], [], [],
          [⟨"S1", false, false, false⟩]⟩,
        ⟨RespData.str "Status Added Sucessfully!", 201⟩) := rfl
  have hr := Reachable.stepMealStatus (Reachable.stepStudent Reachable.init h1) h2
  exact ⟨hr, (mealstatus_at_most_one_and_cascade _ "S1" hr).2.1⟩
